import Mathlib

/-!
Shallow embedding of `timesketch_api_client/story.py`: the block model
(`BaseBlock`, `TextBlock`, `ViewBlock`) and the `Story` document with its
mutating operations (`add_text`, `add_view`, `move_to`, `remove_block`,
`refresh`, `_commit`) and lazy accessors (`blocks`, `title`).

Python dicts coming off the wire are modelled by records with `Option`
fields (a missing key is `none`); Python exceptions are modelled by
`Except PyError` or, where a claim needs the post-exception local state
(`move_to`), by an explicit outcome record.  `json.loads`/`json.dumps` are
treated as the identity on well-formed payloads: a story object's `content`
field is carried as `Option (List RawBlock)`, where `none` stands for the
key being absent (the Python code then passes the default `[]`, a list, to
`json.loads`, which raises `TypeError`), and an empty `objects` list leaves
`content = ''`, on which `json.loads` raises `JSONDecodeError`, a subclass
of `ValueError`.
-/

set_option autoImplicit false

namespace Timesketch

/-- The Python exceptions raised by the story module. -/
inductive PyError where
  | valueError
  | typeError
  | indexError
deriving DecidableEq, Repr

/-- A `view.View` object as the story module observes it: the block code only
ever reads its `id` and `name` attributes (plain `View` instances always have
both, and are always truthy). -/
structure ViewObj where
  id : Int
  name : String
deriving DecidableEq, Repr

/-- The nested `componentProps.view` dict of a raw block representation.
`id` and `name` are read with `.get` and defaults `0` / `''`, so each is
`Option`-valued. -/
structure RawView where
  id : Option Int
  name : Option String
deriving DecidableEq, Repr

/-- A raw block dict (wire format).  `componentPropsView` collapses
`d.get('componentProps', {}).get('view')`: `none` covers a missing
`componentProps` key, a missing `view` key, and a falsy `view` value (`None`
or `{}`) — all of which the source treats identically; `some` is a truthy
(non-empty) view dict. -/
structure RawBlock where
  componentName : Option String
  componentPropsView : Option RawView
  content : Option String
  edit : Option Bool
  showPanel : Option Bool
  isActive : Option Bool
deriving DecidableEq, Repr

/-- Source `BaseBlock._get_base()`: the base building block, with every key present. -/
def get_base : RawBlock :=
  { componentName := some ""
    componentPropsView := none
    content := some ""
    edit := some false
    showPanel := some false
    isActive := some false }

/-- State of a `TextBlock`: its `index` and `_data` (fed payload; `none` is
unfed).  Only string payloads are modelled, so the `isinstance(..., str)`
guard in `to_dict` never fires. -/
structure TextBlockState where
  index : Int
  textData : Option String
deriving DecidableEq, Repr

/-- State of a `ViewBlock`: `index`, `_data` (a fed view object or `none`),
and the `_view_id` / `_view_name` fields set by `from_dict` (constructor
defaults `0` and `''`). -/
structure ViewBlockState where
  index : Int
  viewData : Option ViewObj
  viewId : Int
  viewName : String
deriving DecidableEq, Repr

/-- Source `BaseBlock.feed` on a text block: sets `_data` unconditionally. -/
def TextBlockState.feed (s : TextBlockState) (data : String) : TextBlockState :=
  { s with textData := some data }

/-- Source `BaseBlock.reset` on a text block: clears `_data`. -/
def TextBlockState.reset (s : TextBlockState) : TextBlockState :=
  { s with textData := none }

/-- Source `BaseBlock.feed` on a view block. -/
def ViewBlockState.feed (s : ViewBlockState) (data : ViewObj) : ViewBlockState :=
  { s with viewData := some data }

/-- Source `TextBlock.from_dict`: `self.feed(data_dict.get('content', ''))`. -/
def TextBlockState.from_dict (s : TextBlockState) (d : RawBlock) : TextBlockState :=
  s.feed (d.content.getD "")

/-- Source `TextBlock.to_dict`: `ValueError` when `_data` is falsy (`None` or the
empty string), else the base block with `content` set to the payload. -/
def TextBlockState.to_dict (s : TextBlockState) : Except PyError RawBlock :=
  match s.textData with
  | none => .error .valueError
  | some t =>
    if t = "" then .error .valueError
    else .ok { get_base with content := some t }

/-- Source `ViewBlock.from_dict`: `TypeError` when the view dict is absent or falsy,
else stores `id` (default 0) and `name` (default `''`).  Note `_data` is NOT
touched. -/
def ViewBlockState.from_dict (s : ViewBlockState) (d : RawBlock) :
    Except PyError ViewBlockState :=
  match d.componentPropsView with
  | none => .error .typeError
  | some vd => .ok { s with viewId := vd.id.getD 0, viewName := vd.name.getD "" }

/-- Source `ViewBlock.to_dict`: `ValueError` when `_data` is unfed; the fed view
object always has `id` and `name` attributes, so the `TypeError` guards never
fire in the model. -/
def ViewBlockState.to_dict (s : ViewBlockState) : Except PyError RawBlock :=
  match s.viewData with
  | none => .error .valueError
  | some v =>
    .ok { get_base with
          componentName := some "TsViewEventList"
          componentPropsView := some { id := some v.id, name := some v.name } }

/-- Source `ViewBlock.view_id` property: the fed view object's `id` when `_data` is
set (a `View` is truthy and has `id`), else `_view_id`. -/
def ViewBlockState.view_id (s : ViewBlockState) : Int :=
  match s.viewData with
  | some v => v.id
  | none => s.viewId

/-- Source `ViewBlock.view_name` property. -/
def ViewBlockState.view_name (s : ViewBlockState) : String :=
  match s.viewData with
  | some v => v.name
  | none => s.viewName

/-- A block held in a story's `_blocks` list: a `TextBlock` or a `ViewBlock`. -/
inductive Block where
  | text : TextBlockState → Block
  | view : ViewBlockState → Block
deriving DecidableEq, Repr

/-- Dispatch of `to_dict` (also the `data` property) over the two block kinds. -/
def Block.to_dict : Block → Except PyError RawBlock
  | .text t => t.to_dict
  | .view v => v.to_dict

/-- The `index` attribute of a block. -/
def Block.index : Block → Int
  | .text t => t.index
  | .view v => v.index

/-- The fed payload of a block (`_data`): a string for a text block, a view
object for a view block, `none` when unfed. -/
def Block.payload : Block → Option (String ⊕ ViewObj)
  | .text t => t.textData.map Sum.inl
  | .view v => v.viewData.map Sum.inr

/-- Index normalization shared by Python's sequence operations: a negative
index counts from the end. -/
def pyIdx (len : Nat) (i : Int) : Int :=
  if i < 0 then i + len else i

/-- Python `list.pop(i)` semantics: a negative index counts from the end;
an index out of `[-len, len)` raises `IndexError` (modelled as `none`).
Returns the popped element and the remaining list. -/
def pyPop {α : Type} (l : List α) (i : Int) : Option (α × List α) :=
  if 0 ≤ pyIdx l.length i ∧ pyIdx l.length i < l.length then
    match l.get? (pyIdx l.length i).toNat with
    | some x => some (x, l.eraseIdx (pyIdx l.length i).toNat)
    | none => none
  else none

/-- Python `list.insert(i, x)` semantics: the insertion point is clamped into
`[0, len]` (negative indices count from the end before clamping). -/
def pyInsert {α : Type} (l : List α) (i : Int) (x : α) : List α :=
  let j : Int := if i < 0 then max (i + l.length) 0 else min i l.length
  l.insertIdx j.toNat x

/-- One object of the `{objects: [...]}` payload the resource layer returns
for a story.  `title` is read with `.get('title', 'No Title')` and `content`
with `.get('content', [])` followed by `json.loads`; `none` models a missing
key, and a present `content` key is carried JSON-decoded. -/
structure RawObject where
  title : Option String
  content : Option (List RawBlock)
deriving DecidableEq, Repr

/-- The story's environment: what the server answers.  `serverObjects` is the
`objects` list `lazyload_data()` returns (taken constant across the calls of
one operation), `postStatus` the HTTP status code of the commit `POST`. -/
structure Env where
  serverObjects : List RawObject
  postStatus : Nat
deriving DecidableEq, Repr

/-- Modelled from the spec: `definitions.HTTP_STATUS_CODE_20X` lives in the
`definitions` module, which is not among the sources here; the spec says a
commit/delete succeeds when the "HTTP status [is] in the 2xx range". -/
def HTTP_STATUS_CODE_20X (status : Nat) : Bool :=
  200 ≤ status && status ≤ 299

/-- Mutable local state of a `Story`: `_title` (empty string = not yet
loaded) and `_blocks` (empty list = not yet loaded). -/
structure StoryState where
  title : String
  blocks : List Block
deriving DecidableEq, Repr

/-- The `Story.title` property: when `_title` is falsy, fetch; when the
`objects` list is truthy, set `_title = objects[0].get('title', 'No Title')`;
finally return `_title`.  Returns the value together with the updated state. -/
def Story.title (env : Env) (st : StoryState) : String × StoryState :=
  if st.title = "" then
    match env.serverObjects with
    | [] => (st.title, st)
    | o :: _ =>
      let t := o.title.getD "No Title"
      (t, { st with title := t })
  else (st.title, st)

/-- The decode loop of the `Story.blocks` property over the JSON-decoded
content list: an entry with truthy `content` becomes a `TextBlock` via
`from_dict`; any other entry becomes a `ViewBlock` via `from_dict` (raising
`TypeError` when `componentProps.view` is missing), which is then fed the
`view.View(view_id, view_name, ...)` object built from the block's
properties.  `index` starts at the given seed and increments per entry. -/
def Story.decodeBlocks : Nat → List RawBlock → Except PyError (List Block)
  | _, [] => .ok []
  | index, content_block :: rest =>
    if content_block.content.getD "" ≠ "" then
      let block : TextBlockState :=
        TextBlockState.from_dict { index := (index : Int), textData := none } content_block
      (Story.decodeBlocks (index + 1) rest).map (fun bs => Block.text block :: bs)
    else
      match ViewBlockState.from_dict
          { index := (index : Int), viewData := none, viewId := 0, viewName := "" }
          content_block with
      | .error e => .error e
      | .ok vb =>
        let view_obj : ViewObj := { id := vb.view_id, name := vb.view_name }
        (Story.decodeBlocks (index + 1) rest).map (fun bs => Block.view (vb.feed view_obj) :: bs)

/-- The `Story.blocks` property: when `_blocks` is falsy, fetch the story
data and decode `objects[0]['content']`.  An empty `objects` list leaves
`content = ''` and `json.loads('')` raises a `ValueError`; a missing
`content` key passes the default `[]` to `json.loads`, raising `TypeError`. -/
def Story.blocks (env : Env) (st : StoryState) :
    Except PyError (List Block × StoryState) :=
  if st.blocks.isEmpty then
    match env.serverObjects with
    | [] => .error .valueError
    | o :: _ =>
      match o.content with
      | none => .error .typeError
      | some raws =>
        match Story.decodeBlocks 0 raws with
        | .error e => .error e
        | .ok bs => .ok (bs, { st with blocks := bs })
  else .ok (st.blocks, st)

/-- Source `Story._commit`: serialize every block (`to_dict` may raise), build the
`{title, content}` payload (evaluating the `title` property, which may
mutate `_title`), `POST` it, and return whether the status is 20X. -/
def Story.commit (env : Env) (st : StoryState) : Except PyError (Bool × StoryState) :=
  match st.blocks.mapM Block.to_dict with
  | .error e => .error e
  | .ok _content_list =>
    let (_t, st1) := Story.title env st
    .ok (HTTP_STATUS_CODE_20X env.postStatus, st1)

/-- Source `Story.refresh`: reset `_title` and `_blocks`, re-fetch, and re-run the
`blocks` property (whose errors propagate). -/
def Story.refresh (env : Env) (_st : StoryState) : Except PyError StoryState :=
  match Story.blocks env { title := "", blocks := [] } with
  | .error e => .error e
  | .ok (_, st1) => .ok st1

/-- Source `Story._add_block`: insert the block, commit, refresh.  The method body
has no `return` statement, so Python returns `None` — modelled as the
`Option Bool` value `none` (a `some b` would be an actual boolean return). -/
def Story.add_block (env : Env) (st : StoryState) (block : Block) (index : Int) :
    Except PyError (Option Bool × StoryState) :=
  let st1 := { st with blocks := pyInsert st.blocks index block }
  match Story.commit env st1 with
  | .error e => .error e
  | .ok (_success, st2) =>
    match Story.refresh env st2 with
    | .error e => .error e
    | .ok st3 => .ok (none, st3)

/-- Source `Story.add_text`: index `-1` means append; build a `TextBlock`, feed the
text, delegate to `_add_block` and return its result. -/
def Story.add_text (env : Env) (st : StoryState) (text : String) (index : Int) :
    Except PyError (Option Bool × StoryState) :=
  let index1 : Int := if index = -1 then st.blocks.length else index
  let text_block : TextBlockState := { index := index1, textData := none }
  Story.add_block env st (Block.text (text_block.feed text)) index1

/-- Source `Story.add_view`: a `ViewObj` always has `id` and `name`, so the
`TypeError` guards never fire in the model; otherwise as `add_text`. -/
def Story.add_view (env : Env) (st : StoryState) (view_obj : ViewObj) (index : Int) :
    Except PyError (Option Bool × StoryState) :=
  let index1 : Int := if index = -1 then st.blocks.length else index
  let view_block : ViewBlockState :=
    { index := index1, viewData := none, viewId := 0, viewName := "" }
  Story.add_block env st (Block.view (view_block.feed view_obj)) index1

/-- Outcome of `Story.move_to`: the exception raised if any (`err`), the
local story state when control leaves the method (mutations before a raise
are kept, as in Python), and whether the commit `POST` was sent. -/
structure MoveOutcome where
  err : Option PyError
  state : StoryState
  posted : Bool
deriving DecidableEq, Repr

/-- Source `Story.move_to`: a negative `new_index` returns immediately; otherwise
pop the entry at `block.index`, compare its `data` (i.e. `to_dict`) with the
argument's, raise `ValueError` on mismatch (the popped entry stays removed),
else insert the argument at `new_index` and commit (no refresh; the commit's
boolean is discarded). -/
def Story.move_to (env : Env) (st : StoryState) (block : Block) (new_index : Int) :
    MoveOutcome :=
  if new_index < 0 then { err := none, state := st, posted := false }
  else
    match pyPop st.blocks block.index with
    | none => { err := some .indexError, state := st, posted := false }
    | some (old_block, rest) =>
      match old_block.to_dict with
      | .error e => { err := some e, state := { st with blocks := rest }, posted := false }
      | .ok old_data =>
        match block.to_dict with
        | .error e => { err := some e, state := { st with blocks := rest }, posted := false }
        | .ok new_data =>
          if old_data ≠ new_data then
            { err := some .valueError, state := { st with blocks := rest }, posted := false }
          else
            let st1 := { st with blocks := pyInsert rest new_index block }
            match Story.commit env st1 with
            | .error e => { err := some e, state := st1, posted := false }
            | .ok (_success, st2) => { err := none, state := st2, posted := true }

/-- Source `Story.remove_block`: pop the block at `index`, commit, refresh. -/
def Story.remove_block (env : Env) (st : StoryState) (index : Int) :
    Except PyError StoryState :=
  match pyPop st.blocks index with
  | none => .error .indexError
  | some (_popped, rest) =>
    let st1 := { st with blocks := rest }
    match Story.commit env st1 with
    | .error e => .error e
    | .ok (_success, st2) => Story.refresh env st2

/-! ## Concrete inputs shared by the theorems below -/

/-- A raw text-block dict with the given content, as `TextBlock.to_dict`
produces it and as the server stores it. -/
def rawTextBlock (s : String) : RawBlock :=
  { get_base with content := some s }

/-- A raw view-block dict with the given view id and name, as
`ViewBlock.to_dict` produces it. -/
def rawViewBlock (i : Int) (n : String) : RawBlock :=
  { get_base with
    componentName := some "TsViewEventList"
    componentPropsView := some { id := some i, name := some n } }

/-- A freshly constructed story state: `_title` and `_blocks` unloaded. -/
def freshStory : StoryState := { title := "", blocks := [] }

/-- A freshly constructed text block at index 0. -/
def freshTextBlock : TextBlockState := { index := 0, textData := none }

/-- A freshly constructed view block at index 0. -/
def freshViewBlock : ViewBlockState :=
  { index := 0, viewData := none, viewId := 0, viewName := "" }

/-- A server that answers the commit `POST` with HTTP 200 and whose stored
story holds one text block `"hello"`. -/
def envHello : Env :=
  { serverObjects := [{ title := some "t", content := some [rawTextBlock "hello"] }]
    postStatus := 200 }

/-- Text block `"a"` at index 0. -/
def blkA : Block := Block.text { index := 0, textData := some "a" }

/-- Text block `"b"` at index 1. -/
def blkB : Block := Block.text { index := 1, textData := some "b" }

/-- A loaded two-block story (title already cached). -/
def storyAB : StoryState := { title := "T", blocks := [blkA, blkB] }

/-- A loaded one-block story (title already cached). -/
def storyA : StoryState := { title := "T", blocks := [blkA] }

/-- A stale text-block argument: it claims index 0 but carries payload
`"zz"`, unlike the entry `blkA` actually stored there. -/
def blkStale : Block := Block.text { index := 0, textData := some "zz" }

/-- The story state produced by refreshing against `envHello`. -/
def refreshedHello : StoryState :=
  { title := "", blocks := [Block.text { index := 0, textData := some "hello" }] }

/-- A raw content list with one text entry and one view entry. -/
def rawsHiV : List RawBlock := [rawTextBlock "hi", rawViewBlock 5 "v"]

/-- A server whose stored story is `rawsHiV`. -/
def envHiV : Env :=
  { serverObjects := [{ title := some "t", content := some rawsHiV }], postStatus := 200 }

/-- The block list the accessor decodes `rawsHiV` into. -/
def decodedHiV : List Block :=
  [Block.text { index := 0, textData := some "hi" },
   Block.view { index := 1, viewData := some { id := 5, name := "v" }, viewId := 5, viewName := "v" }]

/-- A server whose first story object carries the literal title `"No Title"`. -/
def envNoTitleValue : Env :=
  { serverObjects := [{ title := some "No Title", content := none }], postStatus := 200 }

/-- A server answering with an empty `objects` list. -/
def envEmptyObjects : Env := { serverObjects := [], postStatus := 200 }

/-! ## Helper lemmas -/

/-- Characterization of a successful `TextBlock.to_dict`. -/
theorem text_to_dict_ok (t : TextBlockState) (d : RawBlock) :
    t.to_dict = Except.ok d ↔
      ∃ s, t.textData = some s ∧ s ≠ "" ∧ d = { get_base with content := some s } := by
  unfold TextBlockState.to_dict
  cases t.textData with
  | none => simp
  | some s =>
    by_cases hs : s = "" <;> simp [hs, eq_comm]

/-- Characterization of a successful `ViewBlock.to_dict`. -/
theorem view_to_dict_ok (v : ViewBlockState) (d : RawBlock) :
    v.to_dict = Except.ok d ↔
      ∃ vo, v.viewData = some vo ∧
        d = { get_base with
              componentName := some "TsViewEventList"
              componentPropsView := some { id := some vo.id, name := some vo.name } } := by
  unfold ViewBlockState.to_dict
  cases v.viewData <;> simp [eq_comm]

/-- Two blocks whose `to_dict` produce the same dict carry the same payload:
the representation determines the payload.  (Contrapositive: distinct
payloads give distinct `data` dicts, which is what `move_to` compares.) -/
theorem to_dict_ok_payload_inj (b1 b2 : Block) (d : RawBlock)
    (h1 : b1.to_dict = Except.ok d) (h2 : b2.to_dict = Except.ok d) :
    b1.payload = b2.payload := by
  cases b1 with
  | text t1 =>
    obtain ⟨s1, hs1, hne1, hd1⟩ := (text_to_dict_ok t1 d).mp h1
    cases b2 with
    | text t2 =>
      obtain ⟨s2, hs2, hne2, hd2⟩ := (text_to_dict_ok t2 d).mp h2
      have h12 := hd1.symm.trans hd2
      simp only [get_base, RawBlock.mk.injEq, Option.some.injEq] at h12
      simp [Block.payload, hs1, hs2, h12]
    | view v2 =>
      obtain ⟨vo2, hv2, hd2⟩ := (view_to_dict_ok v2 d).mp h2
      have h12 := hd1.symm.trans hd2
      simp [get_base, RawBlock.mk.injEq] at h12
  | view v1 =>
    obtain ⟨vo1, hv1, hd1⟩ := (view_to_dict_ok v1 d).mp h1
    cases b2 with
    | text t2 =>
      obtain ⟨s2, hs2, hne2, hd2⟩ := (text_to_dict_ok t2 d).mp h2
      have h12 := hd1.symm.trans hd2
      simp [get_base, RawBlock.mk.injEq] at h12
    | view v2 =>
      obtain ⟨vo2, hv2, hd2⟩ := (view_to_dict_ok v2 d).mp h2
      have hvo : vo1 = vo2 := by
        have h12 := hd1.symm.trans hd2
        simp only [get_base, RawBlock.mk.injEq, Option.some.injEq, RawView.mk.injEq] at h12
        cases vo1; cases vo2
        simp_all
      simp [Block.payload, hv1, hv2, hvo]

/-- A successful `pyPop` removes exactly one element. -/
theorem pyPop_length {α : Type} (l : List α) (i : Int) (x : α) (rest : List α)
    (h : pyPop l i = some (x, rest)) : rest.length + 1 = l.length := by
  unfold pyPop at h
  split at h
  · split at h
    · next y hy =>
      obtain ⟨hlt, -⟩ := List.get?_eq_some.mp hy
      simp only [Option.some.injEq, Prod.mk.injEq] at h
      obtain ⟨-, hr⟩ := h
      subst hr
      exact List.length_eraseIdx_add_one hlt
    · exact absurd h (by simp)
  · exact absurd h (by simp)

/-- Successful decode, entry by entry: for any index seed `n`, entry `j` with
truthy `content` becomes a text block with that content; any other entry had
a (truthy) view dict and becomes a view block fed the resolved view object;
block indices run sequentially from the seed, and no entry is dropped. -/
theorem decodeBlocks_spec (raws : List RawBlock) : ∀ (n : Nat) (bs : List Block),
    Story.decodeBlocks n raws = Except.ok bs →
    bs.length = raws.length ∧
    ∀ j cb, raws.get? j = some cb →
      (if cb.content.getD "" ≠ "" then
        bs.get? j = some (Block.text
          { index := ((n + j : Nat) : Int), textData := some (cb.content.getD "") })
      else ∃ vd, cb.componentPropsView = some vd ∧
        bs.get? j = some (Block.view
          { index := ((n + j : Nat) : Int)
            viewData := some { id := vd.id.getD 0, name := vd.name.getD "" }
            viewId := vd.id.getD 0
            viewName := vd.name.getD "" })) := by
  induction raws with
  | nil =>
    intro n bs h
    simp [Story.decodeBlocks] at h
    subst h
    exact ⟨rfl, by intro j cb hcb; simp at hcb⟩
  | cons cb0 rest ih =>
    intro n bs h
    unfold Story.decodeBlocks at h
    by_cases hc : cb0.content.getD "" = ""
    · -- falsy content: the view branch
      rw [if_neg (by simpa using hc)] at h
      cases hv : cb0.componentPropsView with
      | none => simp [ViewBlockState.from_dict, hv] at h
      | some vd =>
        cases hr : Story.decodeBlocks (n + 1) rest with
        | error e => simp [ViewBlockState.from_dict, hv, hr, Except.map] at h
        | ok bs' =>
          simp only [ViewBlockState.from_dict, hv, hr, Except.map, Except.ok.injEq] at h
          subst h
          obtain ⟨ihlen, ihspec⟩ := ih (n + 1) bs' hr
          refine ⟨by simp [ihlen], ?_⟩
          intro j cb hcb
          cases j with
          | zero =>
            simp only [List.get?_cons_zero, Option.some.injEq] at hcb
            subst hcb
            rw [if_neg (by simpa using hc)]
            refine ⟨vd, hv, ?_⟩
            simp [ViewBlockState.feed, ViewBlockState.view_id, ViewBlockState.view_name]
          | succ j =>
            have hspec := ihspec j cb hcb
            have e : n + 1 + j = n + (j + 1) := by omega
            rw [e] at hspec
            simpa using hspec
    · -- truthy content: the text branch
      rw [if_pos hc] at h
      cases hr : Story.decodeBlocks (n + 1) rest with
      | error e => simp [hr, Except.map] at h
      | ok bs' =>
        simp only [hr, Except.map, Except.ok.injEq] at h
        subst h
        obtain ⟨ihlen, ihspec⟩ := ih (n + 1) bs' hr
        refine ⟨by simp [ihlen], ?_⟩
        intro j cb hcb
        cases j with
        | zero =>
          simp only [List.get?_cons_zero, Option.some.injEq] at hcb
          subst hcb
          rw [if_pos hc]
          simp [TextBlockState.from_dict, TextBlockState.feed]
        | succ j =>
          have hspec := ihspec j cb hcb
          have e : n + 1 + j = n + (j + 1) := by omega
          rw [e] at hspec
          simpa using hspec

/-- A successful `refresh` means the server's first object carried a decodable
content list, and the resulting state is exactly its decode (title cleared). -/
theorem refresh_ok_decode (env : Env) (st0 st1 : StoryState)
    (h : Story.refresh env st0 = Except.ok st1) :
    ∃ o orest raws, env.serverObjects = o :: orest ∧ o.content = some raws ∧
      Story.decodeBlocks 0 raws = Except.ok st1.blocks ∧ st1.title = "" := by
  unfold Story.refresh Story.blocks at h
  cases ho : env.serverObjects with
  | nil => simp [ho] at h
  | cons o orest =>
    cases hc : o.content with
    | none => simp [ho, hc] at h
    | some raws =>
      cases hd : Story.decodeBlocks 0 raws with
      | error e => simp [ho, hc, hd] at h
      | ok bs =>
        simp only [ho, hc, hd, List.isEmpty_nil, if_true, Except.ok.injEq] at h
        exact ⟨o, orest, raws, rfl, hc, by rw [← h]; exact hd, by rw [← h]⟩

/-! ## Claims -/

/-- Claim C1: the claim says `add_text`/`add_view` return a boolean that is
true iff the commit status is 2xx.  The code does not: `_add_block` has no
`return` statement, so both methods return Python `None` (modelled as the
`Option Bool` value `none`) whatever the status — here exhibited on a 200
response, where the claim demands the boolean `True`.  This contradicts the
methods' own docstrings ("Returns: Boolean that indicates whether block was
successfully added."), so the code, not the claim, is at fault. -/
theorem add_text_returns_none :
    HTTP_STATUS_CODE_20X envHello.postStatus = true ∧
    Story.add_text envHello freshStory "hello" (-1) = Except.ok (none, refreshedHello) :=
  ⟨rfl, rfl⟩

/-- Claim C2 (counterexample): the round-trip fails for `ViewBlock`.  A view
block fed the payload `{id := 1, name := "v"}` encodes fine, and a fresh view
block decodes that representation without error — but re-encoding raises
`ValueError`, because `from_dict` stores only `_view_id`/`_view_name` and
never sets `_data`. -/
theorem view_roundtrip_counterexample :
    ViewBlockState.to_dict
        { index := 0, viewData := some { id := 1, name := "v" }, viewId := 0, viewName := "" } =
      Except.ok (rawViewBlock 1 "v") ∧
    ViewBlockState.from_dict freshViewBlock (rawViewBlock 1 "v") =
      Except.ok { index := 0, viewData := none, viewId := 1, viewName := "v" } ∧
    ViewBlockState.to_dict { index := 0, viewData := none, viewId := 1, viewName := "v" } =
      Except.error PyError.valueError :=
  ⟨rfl, rfl, rfl⟩

/-- Claim C2 (amended): for every valid payload, the TextBlock round-trip
`to_dict → from_dict → to_dict` yields the identical representation; for
ViewBlock, `from_dict` accepts the representation but does not restore the
payload (`_data`), so the second `to_dict` raises `ValueError` instead of
reproducing it. -/
theorem block_roundtrip_amended (i j : Int) (s : String) (hs : s ≠ "") (v : ViewObj) :
    ∃ dt dv,
      TextBlockState.to_dict { index := i, textData := some s } = Except.ok dt ∧
      (TextBlockState.from_dict { index := j, textData := none } dt).to_dict = Except.ok dt ∧
      ViewBlockState.to_dict
          { index := i, viewData := some v, viewId := 0, viewName := "" } = Except.ok dv ∧
      ∃ s2,
        ViewBlockState.from_dict
            { index := j, viewData := none, viewId := 0, viewName := "" } dv = Except.ok s2 ∧
        s2.to_dict = Except.error PyError.valueError := by
  refine ⟨rawTextBlock s, rawViewBlock v.id v.name, ?_, ?_, ?_, ?_⟩
  · simp [TextBlockState.to_dict, hs, rawTextBlock]
  · simp [TextBlockState.from_dict, TextBlockState.feed, TextBlockState.to_dict,
      rawTextBlock, get_base, hs]
  · simp [ViewBlockState.to_dict, rawViewBlock]
  · exact ⟨{ index := j, viewData := none, viewId := v.id, viewName := v.name },
      by simp [ViewBlockState.from_dict, rawViewBlock, get_base], rfl⟩

/-- Claim C2 (witness): the amended round-trip at text `"hello"` and view
`{id := 7, name := "w"}`. -/
theorem block_roundtrip_amended_witness :
    "hello" ≠ "" ∧
    ∃ dt dv,
      TextBlockState.to_dict { index := 0, textData := some "hello" } = Except.ok dt ∧
      (TextBlockState.from_dict { index := 1, textData := none } dt).to_dict = Except.ok dt ∧
      ViewBlockState.to_dict
          { index := 0, viewData := some { id := 7, name := "w" }, viewId := 0, viewName := "" } =
        Except.ok dv ∧
      ∃ s2,
        ViewBlockState.from_dict
            { index := 1, viewData := none, viewId := 0, viewName := "" } dv = Except.ok s2 ∧
        s2.to_dict = Except.error PyError.valueError :=
  ⟨by decide, block_roundtrip_amended 0 1 "hello" (by decide) { id := 7, name := "w" }⟩

/-- Claim C6 (counterexample): the claim's "exactly when" fails in the
backward direction — when the first fetched object maps `title` to the
literal string `"No Title"`, the accessor returns `"No Title"` although the
title key is present. -/
theorem title_literal_counterexample :
    (Story.title envNoTitleValue freshStory).1 = "No Title" ∧
    (envNoTitleValue.serverObjects.get? 0).map RawObject.title = some (some "No Title") :=
  ⟨rfl, rfl⟩

/-- Claim C6 (amended): on an unloaded story, the title accessor returns
`objects[0].get('title', 'No Title')` when the fetched objects list is
non-empty — `"No Title"` when the title key is absent, but also when the
stored title is literally `"No Title"` — and leaves the title as the empty
string when the objects list is empty. -/
theorem title_amended (env : Env) (st : StoryState) (h : st.title = "") :
    (Story.title env st).1 =
      match env.serverObjects with
      | [] => ""
      | o :: _ => o.title.getD "No Title" := by
  unfold Story.title
  rw [if_pos h]
  cases env.serverObjects with
  | nil => simpa using h
  | cons o rest => rfl

/-- Claim C6 (witness): an empty objects list leaves the title empty. -/
theorem title_amended_witness : (Story.title envEmptyObjects freshStory).1 = "" :=
  title_amended envEmptyObjects freshStory rfl

/-- Claim C7: feeding a valid (non-empty) text payload `s` to a text block
makes `to_dict` succeed with `content = s`. -/
theorem feed_to_dict_content (b : TextBlockState) (s : String) (h : s ≠ "") :
    ((b.feed s).to_dict).map RawBlock.content = Except.ok (some s) := by
  simp [TextBlockState.feed, TextBlockState.to_dict, h, get_base, Except.map]

/-- Claim C7 (witness): the fed payload `"hello"` comes back as `content`. -/
theorem feed_to_dict_content_witness :
    "hello" ≠ "" ∧
    ((freshTextBlock.feed "hello").to_dict).map RawBlock.content = Except.ok (some "hello") :=
  ⟨by decide, feed_to_dict_content freshTextBlock "hello" (by decide)⟩

/-- Claim C8: `move_to` with a negative target index is a silent no-op —
no exception, the local state untouched, and no commit `POST` sent. -/
theorem move_to_negative_noop (env : Env) (st : StoryState) (block : Block)
    (new_index : Int) (h : new_index < 0) :
    Story.move_to env st block new_index =
      { err := none, state := st, posted := false } := by
  unfold Story.move_to
  rw [if_pos h]

/-- Claim C8 (witness): moving `blkA` to index `-1` changes nothing. -/
theorem move_to_negative_noop_witness :
    Story.move_to envHello storyAB blkA (-1) =
      { err := none, state := storyAB, posted := false } :=
  move_to_negative_noop envHello storyAB blkA (-1) (by decide)

/-- Claim C10: a text block fed the empty string is indistinguishable from an
unfed (reset) one: `to_dict` raises `ValueError` in both cases, so a text
block with empty content can never be encoded. -/
theorem feed_empty_to_dict_valueerror (b : TextBlockState) :
    (b.feed "").to_dict = Except.error PyError.valueError ∧
    b.reset.to_dict = Except.error PyError.valueError := by
  constructor
  · simp [TextBlockState.feed, TextBlockState.to_dict]
  · simp [TextBlockState.reset, TextBlockState.to_dict]

/-- Claim C3 (counterexample): indices are NOT reassigned on `move_to`.
Moving block `"b"` (stored at position 1, `index = 1`) to position 0 succeeds
and commits, but afterwards the block at position 0 still carries `index = 1`
and the block at position 1 carries `index = 0` — the positional invariant is
broken, refuting "re-established after every mutating operation". -/
theorem move_to_no_reindex_counterexample :
    (Story.move_to envHello storyAB blkB 0).err = none ∧
    (Story.move_to envHello storyAB blkB 0).posted = true ∧
    (Story.move_to envHello storyAB blkB 0).state.blocks.map Block.index = [1, 0] :=
  ⟨rfl, rfl, rfl⟩

/-- Claim C3 (amended): the index invariant (`block.index` = position,
0..n-1) is established when blocks are decoded from the server, and is
re-established by `remove_block` through its refresh; `move_to`, however,
commits without refreshing and never reassigns `index` fields, so the
invariant can be broken after `move_to`.  Stated here for `remove_block`:
after it succeeds every block's `index` equals its position. -/
theorem remove_block_reindexes (env : Env) (st : StoryState) (i : Int)
    (st1 : StoryState) (h : Story.remove_block env st i = Except.ok st1) :
    ∀ j, j < st1.blocks.length →
      (st1.blocks.get? j).map Block.index = some (j : Int) := by
  unfold Story.remove_block at h
  cases hpop : pyPop st.blocks i with
  | none => rw [hpop] at h; exact absurd h (by simp)
  | some pr =>
    obtain ⟨p, rest⟩ := pr
    simp only [hpop] at h
    cases hcm : Story.commit env { st with blocks := rest } with
    | error e => simp only [hcm] at h; exact absurd h (by simp)
    | ok br =>
      obtain ⟨b2, st2⟩ := br
      simp only [hcm] at h
      obtain ⟨o, orest, raws, -, -, hdec, -⟩ := refresh_ok_decode env st2 st1 h
      obtain ⟨hlen, hspec⟩ := decodeBlocks_spec raws 0 st1.blocks hdec
      intro j hj
      have hjr : j < raws.length := by omega
      have hs := hspec j (raws.get ⟨j, hjr⟩) (List.get?_eq_get hjr)
      by_cases hc : (raws.get ⟨j, hjr⟩).content.getD "" = ""
      · rw [if_neg (by simpa using hc)] at hs
        obtain ⟨vd, -, hget⟩ := hs
        rw [hget]
        simp [Block.index]
      · rw [if_pos hc] at hs
        rw [hs]
        simp [Block.index]

/-- Claim C3 (witness): removing the first block of the two-block story and
refreshing against `envHello` leaves a one-block story whose block sits at
position 0 with `index = 0`. -/
theorem remove_block_reindexes_witness :
    Story.remove_block envHello storyAB 0 = Except.ok refreshedHello ∧
    (refreshedHello.blocks.get? 0).map Block.index = some 0 :=
  ⟨rfl, remove_block_reindexes envHello storyAB 0 refreshedHello rfl 0 (by decide)⟩

/-- Claim C4: when the entry stored at the argument's index carries a
different payload than the argument (both encodable), `move_to` with a
non-negative target raises `ValueError` and never sends the commit `POST`. -/
theorem move_to_mismatch_uncommitted (env : Env) (st : StoryState)
    (block old_block : Block) (rest : List Block) (new_index : Int)
    (h0 : 0 ≤ new_index)
    (hpop : pyPop st.blocks block.index = some (old_block, rest))
    (d1 d2 : RawBlock)
    (h1 : old_block.to_dict = Except.ok d1) (h2 : block.to_dict = Except.ok d2)
    (hne : old_block.payload ≠ block.payload) :
    (Story.move_to env st block new_index).err = some PyError.valueError ∧
    (Story.move_to env st block new_index).posted = false := by
  have hd : d1 ≠ d2 := by
    intro hdd
    exact hne (to_dict_ok_payload_inj old_block block d1 h1 (by rw [hdd]; exact h2))
  have hn : ¬ new_index < 0 := by omega
  constructor <;> simp [Story.move_to, hpop, h1, h2, hn, hd]

/-- Claim C4 (witness): a stale argument carrying `"zz"` against the stored
entry `"a"` (both at index 0) raises `ValueError` without committing. -/
theorem move_to_mismatch_uncommitted_witness :
    (Story.move_to envHello storyA blkStale 0).err = some PyError.valueError ∧
    (Story.move_to envHello storyA blkStale 0).posted = false :=
  move_to_mismatch_uncommitted envHello storyA blkStale blkA [] 0 (by decide)
    (by decide) (rawTextBlock "a") (rawTextBlock "zz") rfl rfl (by decide)

/-- Claim C9: when `move_to` raises the mismatch `ValueError`, the popped
entry has already been removed from the local block list and is not restored:
the story leaves the call one block shorter. -/
theorem move_to_mismatch_shrinks (env : Env) (st : StoryState)
    (block old_block : Block) (rest : List Block) (new_index : Int)
    (h0 : 0 ≤ new_index)
    (hpop : pyPop st.blocks block.index = some (old_block, rest))
    (d1 d2 : RawBlock)
    (h1 : old_block.to_dict = Except.ok d1) (h2 : block.to_dict = Except.ok d2)
    (hne : old_block.payload ≠ block.payload) :
    (Story.move_to env st block new_index).err = some PyError.valueError ∧
    (Story.move_to env st block new_index).state.blocks = rest ∧
    (Story.move_to env st block new_index).state.blocks.length + 1 = st.blocks.length := by
  have hd : d1 ≠ d2 := by
    intro hdd
    exact hne (to_dict_ok_payload_inj old_block block d1 h1 (by rw [hdd]; exact h2))
  have hn : ¬ new_index < 0 := by omega
  have hrest : (Story.move_to env st block new_index).state.blocks = rest := by
    simp [Story.move_to, hpop, h1, h2, hn, hd]
  refine ⟨by simp [Story.move_to, hpop, h1, h2, hn, hd], hrest, ?_⟩
  rw [hrest]
  exact pyPop_length st.blocks block.index old_block rest hpop

/-- Claim C9 (witness): the mismatch error on the one-block story leaves the
in-memory list empty — one block shorter than before the call. -/
theorem move_to_mismatch_shrinks_witness :
    (Story.move_to envHello storyA blkStale 0).err = some PyError.valueError ∧
    (Story.move_to envHello storyA blkStale 0).state.blocks = [] ∧
    (Story.move_to envHello storyA blkStale 0).state.blocks.length + 1 =
      storyA.blocks.length :=
  move_to_mismatch_shrinks envHello storyA blkStale blkA [] 0 (by decide)
    (by decide) (rawTextBlock "a") (rawTextBlock "zz") rfl rfl (by decide)

/-- Claim C5: when the blocks accessor decodes the server's raw block list
(unloaded story, non-empty objects list, present content key), every entry
with truthy `content` becomes a `TextBlock` carrying that content, every
other entry had a `componentProps.view` dict and becomes a `ViewBlock` fed
the resolved view object `{id, name}` (defaults 0 / `''`), entries are kept
in order with none dropped, and indices run sequentially from 0. -/
theorem blocks_accessor_decode (env : Env) (st : StoryState) (o : RawObject)
    (orest : List RawObject) (raws : List RawBlock) (bs : List Block) (st2 : StoryState)
    (hempty : st.blocks = [])
    (ho : env.serverObjects = o :: orest)
    (hc : o.content = some raws)
    (h : Story.blocks env st = Except.ok (bs, st2)) :
    bs.length = raws.length ∧
    ∀ j cb, raws.get? j = some cb →
      (if cb.content.getD "" ≠ "" then
        bs.get? j = some (Block.text
          { index := (j : Int), textData := some (cb.content.getD "") })
      else ∃ vd, cb.componentPropsView = some vd ∧
        bs.get? j = some (Block.view
          { index := (j : Int)
            viewData := some { id := vd.id.getD 0, name := vd.name.getD "" }
            viewId := vd.id.getD 0
            viewName := vd.name.getD "" })) := by
  have hdec : Story.decodeBlocks 0 raws = Except.ok bs := by
    unfold Story.blocks at h
    cases hd : Story.decodeBlocks 0 raws with
    | error e => simp [hempty, ho, hc, hd] at h
    | ok bs2 =>
      simp only [hempty, ho, hc, hd, List.isEmpty_nil, if_true, Except.ok.injEq,
        Prod.mk.injEq] at h
      exact congrArg Except.ok h.1
  obtain ⟨hlen, hspec⟩ := decodeBlocks_spec raws 0 bs hdec
  refine ⟨hlen, ?_⟩
  intro j cb hcb
  have hs := hspec j cb hcb
  simpa using hs

/-- Claim C5 (witness): decoding a stored story of one text entry `"hi"` and
one view entry `{id := 5, name := "v"}` yields both blocks in order; the view
entry at position 1 is a `ViewBlock` fed the resolved view, `index = 1`. -/
theorem blocks_accessor_decode_witness :
    decodedHiV.length = rawsHiV.length ∧
    decodedHiV.get? 1 = some (Block.view
      { index := 1, viewData := some { id := 5, name := "v" }, viewId := 5, viewName := "v" }) := by
  have h := blocks_accessor_decode envHiV freshStory
    { title := some "t", content := some rawsHiV } [] rawsHiV decodedHiV
    { title := "", blocks := decodedHiV } rfl rfl rfl rfl
  refine ⟨h.1, ?_⟩
  have h2 := h.2 1 (rawViewBlock 5 "v") rfl
  rw [if_neg (by simp [rawViewBlock, get_base])] at h2
  obtain ⟨vd, hvd, hget⟩ := h2
  simp only [rawViewBlock, get_base, Option.some.injEq] at hvd
  rw [← hvd] at hget
  simpa using hget

end Timesketch
